import Mathlib

/-!
Shallow embedding of the `rust_web_server` core: request parsing
(`src/http/request/mod.rs`), route matching (`src/http/request/matcher.rs`),
response construction and serialization (`src/http/response/mod.rs`), the
per-job dispatch of `Server::start` (`src/http/server.rs`), and the thread
pool construction (`src/concurrent/thread_pool.rs`).

Rust strings are Lean `String`s.  Rust's `str::split` with a one-character
pattern is embedded as `splitChar` over the character list (every occurrence
of the separator splits; `n` separators yield `n + 1` pieces, so the result
is never empty and splitting the empty string yields `[""]`, exactly as in
Rust).  Iterator `next()` calls become head/tail access on the resulting
list.  `HashMap<String, Vec<String>>` with `entry().or_default()` access is
embedded as an association list; `HashMap<String, String>` insertion
(last-write-wins) likewise.  Fallible Rust functions returning
`Result<_, std::io::Error>` become `Except Error _` where `Error` keeps the
message that `Error::new(kind, message)` carries (its `Display` prints the
message).  A Rust panic is modelled as `Option.none`.
-/

namespace RustWebServer

/-- Embedding of Rust `str::split(sep)` for a one-character separator,
on the underlying character list. -/
def splitChar (sep : Char) : List Char → List (List Char)
  | [] => [[]]
  | c :: rest =>
    if c = sep then
      [] :: splitChar sep rest
    else
      match splitChar sep rest with
      | [] => [[c]]
      | p :: ps => (c :: p) :: ps

/-- Rust `str::split(sep)` on a `String`, producing the pieces as strings. -/
def rSplit (sep : Char) (s : String) : List String :=
  (splitChar sep s.data).map List.asString

/-- Embedding of `std::io::Error` as created by `parser_error`: only the
message is observable (its `Display` implementation prints it). -/
structure Error where
  message : String
deriving DecidableEq, Repr

/-- `parser_error` from `src/http/request/mod.rs`. -/
def parser_error (error_message : String) : Error :=
  ⟨error_message⟩

/-- `RequestMethod` from `src/http/request/mod.rs`. -/
inductive RequestMethod where
  | GET
  | POST
  | PUT
  | DELETE
deriving DecidableEq, Repr, BEq

/-- `RequestMethod::parse`. -/
def RequestMethod.parse (method : String) : Option RequestMethod :=
  match method with
  | "GET" => some .GET
  | "POST" => some .POST
  | "PUT" => some .PUT
  | "DELETE" => some .DELETE
  | _ => none

/-- `HashMap<String, Vec<String>>` multimap:
`map.entry(key).or_default().extend(vals)`. -/
def map_extend : List (String × List String) → String → List String →
    List (String × List String)
  | [], key, vals => [(key, vals)]
  | (k, vs) :: rest, key, vals =>
    if k = key then (k, vs ++ vals) :: rest
    else (k, vs) :: map_extend rest key vals

/-- `HashMap<String, Vec<String>>` multimap:
`map.entry(key).or_default().push(v)`. -/
def map_push (m : List (String × List String)) (key v : String) :
    List (String × List String) :=
  map_extend m key [v]

/-- `HashMap<String, Vec<String>>` lookup: `map.get(key)`. -/
def map_get : List (String × List String) → String → Option (List String)
  | [], _ => none
  | (k, vs) :: rest, key => if k = key then some vs else map_get rest key

/-- `parse_query_param_values` from `src/http/request/mod.rs`: split the raw
value text on `,`; an empty list of values is a parse error. -/
def parse_query_param_values (query_param_values : String) :
    Except Error (List String) :=
  let parse_error :=
    parser_error ("Invalid query param value: " ++ query_param_values)
  let values := rSplit ',' query_param_values
  if values.isEmpty then .error parse_error else .ok values

/-- `parse_query_param` from `src/http/request/mod.rs`: the segment is split
on `=`; the first `next()` is the name, the second `next()` the raw value
text (a missing piece is a parse error). -/
def parse_query_param (query_param : String) :
    Except Error (String × List String) :=
  let parse_error := parser_error ("Invalid query param: " ++ query_param)
  match rSplit '=' query_param with
  | [] => .error parse_error
  | param_name :: rest =>
    match rest with
    | [] => .error parse_error
    | param_values_str :: _ =>
      match parse_query_param_values param_values_str with
      | .error e => .error e
      | .ok param_values => .ok (param_name, param_values)

/-- The `for query_param in query_params` loop body of `parse_query_params`:
parse each segment and merge it into the accumulating multimap via
`entry().or_default().extend()`. -/
def insert_query_params : List String → List (String × List String) →
    Except Error (List (String × List String))
  | [], result => .ok result
  | query_param :: rest, result =>
    match parse_query_param query_param with
    | .error e => .error e
    | .ok (param_name, param_values) =>
      insert_query_params rest (map_extend result param_name param_values)

/-- `parse_query_params` from `src/http/request/mod.rs`: split the query
string on `&` and fold the segments into a multimap. -/
def parse_query_params (query_str : String) :
    Except Error (List (String × List String)) :=
  insert_query_params (rSplit '&' query_str) []

/-- The body of `parse_path` after `path.split("&")`: the first `next()` is
the url; the second `next()` is `Some("")` (empty query), `Some(query_str)`
(parsed), or `None` (no query). -/
def parse_path_parts (path : String) : List String →
    Except Error (String × List (String × List String))
  | [] => .error (parser_error ("Invalid path: " ++ path))
  | url :: rest =>
    match rest with
    | [] => .ok (url, [])
    | "" :: _ => .ok (url, [])
    | query_str :: _ =>
      match parse_query_params query_str with
      | .error e => .error e
      | .ok query_params => .ok (url, query_params)

/-- `parse_path` from `src/http/request/mod.rs`. -/
def parse_path (path : String) :
    Except Error (String × List (String × List String)) :=
  parse_path_parts path (rSplit '&' path)

/-- `parse_request_line` from `src/http/request/mod.rs`: split the line on
spaces; the first `next()` is the method token, the second the path. -/
def parse_request_line (request_line : String) :
    Except Error (RequestMethod × String) :=
  let parse_error := parser_error ("Invalid request line: " ++ request_line)
  match rSplit ' ' request_line with
  | [] => .error parse_error
  | request_method_str :: rest =>
    match RequestMethod.parse request_method_str with
    | none => .error parse_error
    | some request_method =>
      match rest with
      | [] => .error parse_error
      | path :: _ => .ok (request_method, path)

/-- `Request` from `src/http/request/mod.rs`. -/
structure Request where
  url : String
  method : RequestMethod
  headers : List (String × List String)
  query_params : List (String × List String)

/-- `RequestBuilder` from `src/http/request/mod.rs`. -/
structure RequestBuilder where
  url : String
  method : RequestMethod
  headers : List (String × List String)
  query_params : List (String × List String)

/-- `Request::builder()`. -/
def Request.builder : RequestBuilder :=
  { url := "", method := .GET, headers := [], query_params := [] }

/-- `RequestBuilder::add_header`: `entry(name).or_default().push(value)`. -/
def RequestBuilder.add_header (b : RequestBuilder)
    (header_name header_value : String) : RequestBuilder :=
  { b with headers := map_push b.headers header_name header_value }

/-- `RequestBuilder::build`. -/
def RequestBuilder.build (b : RequestBuilder) : Request :=
  { url := b.url, method := b.method, headers := b.headers,
    query_params := b.query_params }

/-- `Request::get_header`. -/
def Request.get_header (r : Request) (header_name : String) :
    Option (List String) :=
  map_get r.headers header_name

/-- `RequestMatcher` from `src/http/request/matcher.rs`. -/
structure RequestMatcher where
  method : RequestMethod
  url : String

/-- `RequestMatcher::matches`. -/
def RequestMatcher.matches (m : RequestMatcher) (request : Request) : Bool :=
  m.method == request.method && m.url == request.url

/-- `HashMap<String, String>` insertion (unique keys, last write wins):
`map.insert(key, v)`. -/
def map_put : List (String × String) → String → String →
    List (String × String)
  | [], key, v => [(key, v)]
  | (k, w) :: rest, key, v =>
    if k = key then (k, v) :: rest
    else (k, w) :: map_put rest key v

/-- `Response` from `src/http/response/mod.rs`; the header map is carried in
its iteration order. -/
structure Response where
  code : Nat
  body : String
  headers : List (String × String)
deriving DecidableEq, Repr

/-- `ResponseBuilder` from `src/http/response/mod.rs` (`Default` gives code
`0`, empty body, empty header map). -/
structure ResponseBuilder where
  code : Nat
  body : String
  headers : List (String × String)

/-- `Response::builder()` (the `Default` builder). -/
def Response.builder : ResponseBuilder :=
  { code := 0, body := "", headers := [] }

/-- `ResponseBuilder::code`. -/
def ResponseBuilder.with_code (b : ResponseBuilder) (code : Nat) :
    ResponseBuilder :=
  { b with code := code }

/-- `ResponseBuilder::body`. -/
def ResponseBuilder.with_body (b : ResponseBuilder) (body : String) :
    ResponseBuilder :=
  { b with body := body }

/-- `ResponseBuilder::add_header`: `headers.insert(name, value)`. -/
def ResponseBuilder.with_header (b : ResponseBuilder) (n v : String) :
    ResponseBuilder :=
  { b with headers := map_put b.headers n v }

/-- `ResponseBuilder::build`. -/
def ResponseBuilder.build (b : ResponseBuilder) : Response :=
  { code := b.code, body := b.body, headers := b.headers }

/-- The header fold of `impl Display for Response`:
`headers.iter().fold(String::new(), |acc, (name, value)| acc + name + ": " + value + "\r\n")`. -/
def headers_string (headers : List (String × String)) : String :=
  headers.foldl (fun acc p => acc ++ p.1 ++ ": " ++ p.2 ++ "\r\n") ""

/-- `impl Display for Response`:
`write!(f, "HTTP/1.1 {}\r\n{}\r\n{}", code, headers, body)`. -/
def Response.serialize (r : Response) : String :=
  "HTTP/1.1 " ++ toString r.code ++ "\r\n" ++ headers_string r.headers
    ++ "\r\n" ++ r.body

/-- `Response::write`: the sequence of chunks written to the stream —
a single `write_all` of the serialized text. -/
def Response.write (r : Response) : List String :=
  [r.serialize]

/-- `RequestHandler` from `src/http/server.rs`: a matcher paired with a
boxed handler function. -/
structure RequestHandler where
  matcher : RequestMatcher
  handler_fn : Request → Response

/-- `not_found_response` from `src/http/server.rs`. -/
def not_found_response : Response :=
  ((Response.builder.with_code 404).with_body
    "Requested page has not been found").build

/-- `server_error_response` from `src/http/server.rs`:
`format!("Something went wrong: {}", error)` as the 500 body. -/
def server_error_response (e : Error) : Response :=
  ((Response.builder.with_code 500).with_body
    ("Something went wrong: " ++ e.message)).build

/-- The per-connection job body of `Server::start`: on parse success, find
the first registered handler whose matcher matches and invoke it, else the
404 response; on parse failure, the 500 response. -/
def handle_request (handlers : List RequestHandler)
    (parse_result : Except Error Request) : Response :=
  match parse_result with
  | .ok request =>
    match handlers.find? (fun h => h.matcher.matches request) with
    | some h => h.handler_fn request
    | none => not_found_response
  | .error e => server_error_response e

/-- `Worker` from `src/concurrent/worker.rs` (only the identifier is
relevant to pool construction). -/
structure Worker where
  id : Nat
deriving DecidableEq, Repr

/-- `ThreadPool` from `src/concurrent/thread_pool.rs`. -/
structure ThreadPool where
  workers : List Worker
deriving DecidableEq, Repr

/-- `ThreadPool::new`: `assert!(size > 0)` (a failed assertion is a panic,
modelled as `none`), then one worker per id in `0..size`. -/
def ThreadPool.new (size : Nat) : Option ThreadPool :=
  if size > 0 then
    some { workers := (List.range size).map (fun worker_id => ⟨worker_id⟩) }
  else
    none

/-- `ThreadPool::size`: `workers.len()`. -/
def ThreadPool.size (p : ThreadPool) : Nat :=
  p.workers.length

end RustWebServer

namespace RustWebServer

/-! ### Helper lemmas -/

/-- Splitting never produces an empty list of pieces: `n` separators yield
`n + 1` pieces. -/
theorem splitChar_ne_nil (sep : Char) (l : List Char) : splitChar sep l ≠ [] := by
  induction l with
  | nil => simp [splitChar]
  | cons c rest ih =>
    simp only [splitChar]
    split
    · simp
    · split
      · simp
      · simp

/-- Splitting a string that does not contain the separator yields the whole
string as the single piece. -/
theorem splitChar_of_not_mem {sep : Char} {l : List Char} (h : sep ∉ l) :
    splitChar sep l = [l] := by
  induction l with
  | nil => rfl
  | cons c rest ih =>
    simp only [List.mem_cons, not_or] at h
    obtain ⟨h1, h2⟩ := h
    simp only [splitChar]
    rw [if_neg (fun hc => h1 hc.symm), ih h2]

/-- Splitting at the first separator occurrence: the separator-free part
before it is the first piece. -/
theorem splitChar_append_sep {sep : Char} {l : List Char} (r : List Char)
    (h : sep ∉ l) :
    splitChar sep (l ++ sep :: r) = l :: splitChar sep r := by
  induction l with
  | nil => simp [splitChar]
  | cons c rest ih =>
    simp only [List.mem_cons, not_or] at h
    obtain ⟨h1, h2⟩ := h
    simp only [List.cons_append, splitChar, List.append_eq]
    rw [if_neg (fun hc => h1 hc.symm), ih h2]

/-- `rSplit` never returns an empty list, exactly as Rust's `str::split`. -/
theorem rSplit_ne_nil (sep : Char) (s : String) : rSplit sep s ≠ [] := by
  intro hmap
  exact splitChar_ne_nil sep s.data (List.map_eq_nil_iff.mp hmap)

/-- `String.join` distributes over `cons`. -/
theorem join_cons (a : String) (l : List String) :
    String.join (a :: l) = a ++ String.join l := by
  apply String.ext
  simp [String.join_eq]

/-- The header fold of the `Display` implementation is the concatenation of
the rendered header lines. -/
theorem headers_fold_eq (hs : List (String × String)) (init : String) :
    hs.foldl (fun acc p => acc ++ p.1 ++ ": " ++ p.2 ++ "\r\n") init
      = init ++ String.join (hs.map fun p => p.1 ++ ": " ++ p.2 ++ "\r\n") := by
  induction hs generalizing init with
  | nil => simp [String.join]
  | cons p t ih =>
    simp only [List.foldl_cons]
    rw [ih, List.map_cons, join_cons]
    simp [String.append_assoc]

/-- Extending a multimap entry appends to the existing value list. -/
theorem map_get_extend_self (m : List (String × List String)) (k : String)
    (vs : List String) :
    map_get (map_extend m k vs) k = some ((map_get m k).getD [] ++ vs) := by
  induction m with
  | nil => simp [map_extend, map_get]
  | cons p rest ih =>
    obtain ⟨k', vs'⟩ := p
    by_cases hk : k' = k
    · subst hk
      simp [map_extend, map_get]
    · simp [map_extend, map_get, hk, ih]

/-- Extending a multimap under one key leaves lookups of other keys
unchanged. -/
theorem map_get_extend_ne {key k : String} (m : List (String × List String))
    (vs : List String) (h : key ≠ k) :
    map_get (map_extend m key vs) k = map_get m k := by
  induction m with
  | nil => simp [map_extend, map_get, h]
  | cons p rest ih =>
    obtain ⟨k', vs'⟩ := p
    by_cases hk : k' = key
    · subst hk
      simp [map_extend, map_get, h]
    · simp [map_extend, map_get, hk, ih]

/-- A sequence of `RequestBuilder::add_header` calls, one per listed
(name, value) pair. -/
def apply_headers (b : RequestBuilder) (adds : List (String × String)) :
    RequestBuilder :=
  adds.foldl (fun b p => b.add_header p.1 p.2) b

end RustWebServer

namespace RustWebServer

/-! ### Claim theorems -/

/-- Claim C1: on parse success the dispatch job scans the registered
(matcher, handler) pairs in registration order and invokes the handler of
the first matcher that matches the request; if no matcher matches, the
result is the fixed 404 response with body
"Requested page has not been found" and no handler is invoked. -/
theorem dispatch_first_match (request : Request) :
    (∀ (pre post : List RequestHandler) (h : RequestHandler),
        (∀ g ∈ pre, g.matcher.matches request = false) →
        h.matcher.matches request = true →
        handle_request (pre ++ h :: post) (Except.ok request)
          = h.handler_fn request)
  ∧ (∀ handlers : List RequestHandler,
        (∀ g ∈ handlers, g.matcher.matches request = false) →
        handle_request handlers (Except.ok request) = not_found_response)
  ∧ not_found_response.code = 404
  ∧ not_found_response.body = "Requested page has not been found" := by
  refine ⟨?_, ?_, rfl, rfl⟩
  · intro pre post h hpre hh
    simp only [handle_request]
    rw [List.find?_append, List.find?_eq_none.mpr (fun x hx => by simp [hpre x hx])]
    simp [hh]
  · intro handlers hnone
    simp only [handle_request]
    rw [List.find?_eq_none.mpr (fun x hx => by simp [hnone x hx])]

/-- Witness for C1: a table whose first entry does not match and whose
second does dispatches to the second handler; the empty table yields the
404 response. -/
theorem dispatch_first_match_witness :
    handle_request
      [⟨⟨RequestMethod.POST, "/test"⟩, fun _ => not_found_response⟩,
       ⟨⟨RequestMethod.GET, "/test"⟩,
         fun _ => ((Response.builder.with_code 200).with_body "Test").build⟩]
      (Except.ok ⟨"/test", RequestMethod.GET, [], []⟩)
      = ((Response.builder.with_code 200).with_body "Test").build
  ∧ handle_request [] (Except.ok ⟨"/missing", RequestMethod.GET, [], []⟩)
      = not_found_response :=
  ⟨(dispatch_first_match ⟨"/test", RequestMethod.GET, [], []⟩).1
      [⟨⟨RequestMethod.POST, "/test"⟩, fun _ => not_found_response⟩] []
      ⟨⟨RequestMethod.GET, "/test"⟩,
        fun _ => ((Response.builder.with_code 200).with_body "Test").build⟩
      (fun g hg => by
        simp only [List.mem_singleton] at hg
        subst hg
        rfl)
      rfl,
   (dispatch_first_match ⟨"/missing", RequestMethod.GET, [], []⟩).2.1 []
      (fun g hg => absurd hg (List.not_mem_nil g))⟩

/-- Claim C2 counterexample: parsing the path "/u&a=1&b=2" keeps only the
segment between the first and second ampersand as the query string, so the
result holds the pair a = ["1"] and no pair for b at all. -/
theorem path_query_counterexample :
    parse_path "/u&a=1&b=2" = Except.ok ("/u", [("a", ["1"])])
  ∧ map_get [("a", ["1"])] "b" = none :=
  ⟨rfl, rfl⟩

/-- Claim C2 (amended): path parsing takes the text before the first
ampersand as the url and only the second ampersand-separated segment as the
query string; every segment after the second is discarded, so
"/u&a=1&b=2" yields url "/u" and the single pair a = ["1"] with no entry
for b. -/
theorem path_query_second_segment :
    (∀ (path url q : String) (rest : List String),
        parse_path_parts path (url :: q :: rest)
          = parse_path_parts path [url, q])
  ∧ parse_path "/u&a=1&b=2" = Except.ok ("/u", [("a", ["1"])])
  ∧ map_get [("a", ["1"])] "b" = none := by
  refine ⟨?_, rfl, rfl⟩
  intro path url q rest
  by_cases hq : q = ""
  · subst hq
    rfl
  · simp only [parse_path_parts]

/-- Claim C3 counterexample: for the segment "name=" (nothing after the
equals sign) parsing succeeds with the single empty-string value, rather
than failing with a parse error. -/
theorem query_empty_value_counterexample :
    parse_query_param "name=" = Except.ok ("name", [""]) :=
  rfl

/-- Claim C3 (amended): the raw value text is split on commas into the
ordered value list; splitting always yields at least one (possibly empty)
value, so the value list is never empty, the empty-list parse error is
unreachable, and "name=" parses successfully to ("name", [""]). -/
theorem query_values_never_empty :
    (∀ s : String, parse_query_param_values s = Except.ok (rSplit ',' s))
  ∧ (∀ s : String, rSplit ',' s ≠ [])
  ∧ parse_query_param "name=" = Except.ok ("name", [""]) := by
  refine ⟨?_, fun s => rSplit_ne_nil ',' s, rfl⟩
  intro s
  have hne := rSplit_ne_nil ',' s
  simp only [parse_query_param_values]
  rw [if_neg (by simpa [List.isEmpty_iff] using hne)]

/-- Claim C4: on parse failure the dispatch job returns the 500 response
whose body names the failure ("Something went wrong: " followed by the
error's message), and routing is skipped: the result does not depend on the
registered handlers. -/
theorem parse_failure_yields_500 (handlers : List RequestHandler) (e : Error) :
    handle_request handlers (Except.error e) = server_error_response e
  ∧ handle_request handlers (Except.error e) = handle_request [] (Except.error e)
  ∧ (server_error_response e).code = 500
  ∧ (server_error_response e).body = "Something went wrong: " ++ e.message :=
  ⟨rfl, rfl, rfl, rfl⟩

/-- Claim C5: method-token parsing succeeds exactly on the four strings
"GET", "POST", "PUT" and "DELETE"; any other first token of a request
line — including the empty string and "UNKNOWN" — makes request-line
parsing fail with the malformed-request-line parse error. -/
theorem method_token_parsing :
    (∀ t : String, (∃ m, RequestMethod.parse t = some m) ↔
        (t = "GET" ∨ t = "POST" ∨ t = "PUT" ∨ t = "DELETE"))
  ∧ (∀ (request_line tok : String) (rest : List String),
        rSplit ' ' request_line = tok :: rest →
        RequestMethod.parse tok = none →
        parse_request_line request_line =
          Except.error (parser_error ("Invalid request line: " ++ request_line)))
  ∧ parse_request_line "" =
      Except.error (parser_error "Invalid request line: ")
  ∧ parse_request_line "UNKNOWN /x" =
      Except.error (parser_error "Invalid request line: UNKNOWN /x") := by
  refine ⟨?_, ?_, rfl, rfl⟩
  · intro t
    constructor
    · rintro ⟨m, hm⟩
      unfold RequestMethod.parse at hm
      split at hm
      · exact Or.inl rfl
      · exact Or.inr (Or.inl rfl)
      · exact Or.inr (Or.inr (Or.inl rfl))
      · exact Or.inr (Or.inr (Or.inr rfl))
      · exact absurd hm (by simp)
    · rintro (h | h | h | h) <;> subst h <;> exact ⟨_, rfl⟩
  · intro request_line tok rest h1 h2
    unfold parse_request_line
    rw [h1]
    simp [h2]

/-- Witness for C5: the request line "UNKNOWN /x" has first token
"UNKNOWN", which is not a method, so request-line parsing fails. -/
theorem method_token_parsing_witness :
    parse_request_line "UNKNOWN /x" =
      Except.error (parser_error "Invalid request line: UNKNOWN /x") :=
  method_token_parsing.2.1 "UNKNOWN /x" "UNKNOWN" ["/x"] rfl rfl

/-- Claim C6: serialization produces exactly
"HTTP/1.1 {code}\r\n{headers}\r\n{body}" where {headers} is the
concatenation of one line "{name}: {value}\r\n" per header in
map-iteration order, and writing performs one single write of the full
serialized text. -/
theorem response_serialization_format (r : Response) :
    r.serialize = "HTTP/1.1 " ++ toString r.code ++ "\r\n"
        ++ String.join (r.headers.map fun p => p.1 ++ ": " ++ p.2 ++ "\r\n")
        ++ "\r\n" ++ r.body
  ∧ r.write = [r.serialize] := by
  constructor
  · unfold Response.serialize headers_string
    rw [headers_fold_eq]
    simp [String.empty_append]
  · rfl

/-- Claim C7: the request header multimap accumulates: adding "X" with
values "1" then "2" yields get_header "X" = ["1", "2"]; in general adding
a value under a name appends it to that name's list; and a name that was
never added looks up as none. -/
theorem header_multimap_accumulates :
    ((((Request.builder.add_header "X" "1").add_header "X" "2").build).get_header "X"
        = some ["1", "2"])
  ∧ (∀ (b : RequestBuilder) (n v : String),
        ((b.add_header n v).build).get_header n
          = some ((((b.build).get_header n).getD []) ++ [v]))
  ∧ (∀ (adds : List (String × String)) (n : String),
        n ∉ adds.map Prod.fst →
        ((apply_headers Request.builder adds).build).get_header n = none) := by
  refine ⟨rfl, ?_, ?_⟩
  · intro b n v
    show map_get (map_extend b.headers n [v]) n = _
    rw [map_get_extend_self]
    rfl
  · intro adds n hn
    have aux : ∀ (l : List (String × String)) (b : RequestBuilder),
        n ∉ l.map Prod.fst → map_get b.headers n = none →
        map_get (apply_headers b l).headers n = none := by
      intro l
      induction l with
      | nil => intro b _ hb; exact hb
      | cons p t ih =>
        intro b hmem hb
        simp only [List.map_cons, List.mem_cons, not_or] at hmem
        obtain ⟨hp, ht⟩ := hmem
        show map_get (apply_headers (b.add_header p.1 p.2) t).headers n = none
        apply ih _ ht
        show map_get (map_extend b.headers p.1 [p.2]) n = none
        rw [map_get_extend_ne _ _ (fun hh => hp hh.symm)]
        exact hb
    exact aux adds Request.builder hn rfl

/-- Witness for C7: a builder that only ever added the header "A" reports
the never-added header "X" as absent. -/
theorem header_multimap_witness :
    ("X" ∉ ([("A", "1")].map Prod.fst))
  ∧ ((apply_headers Request.builder [("A", "1")]).build).get_header "X" = none :=
  ⟨by decide, header_multimap_accumulates.2.2 [("A", "1")] "X" (by decide)⟩

/-- Claim C8: thread-pool construction fails fatally exactly when the
requested size is 0; for every positive size it succeeds and the pool
reports exactly that worker count. -/
theorem thread_pool_size_contract :
    (∀ size : Nat, ThreadPool.new size = none ↔ size = 0)
  ∧ (∀ size : Nat, 0 < size →
        ∃ p : ThreadPool, ThreadPool.new size = some p ∧ p.size = size) := by
  constructor
  · intro size
    constructor
    · intro hnone
      by_contra hs
      have hpos : 0 < size := Nat.pos_of_ne_zero hs
      simp [ThreadPool.new, hpos] at hnone
    · intro hz
      subst hz
      rfl
  · intro size h
    exact ⟨{ workers := (List.range size).map (fun worker_id => ⟨worker_id⟩) },
           by simp [ThreadPool.new, h],
           by simp [ThreadPool.size]⟩

/-- Witness for C8: size 0 fails; size 3 yields a pool of size 3. -/
theorem thread_pool_size_witness :
    (ThreadPool.new 0 = none) ∧ (0 < 3)
  ∧ (∃ p, ThreadPool.new 3 = some p ∧ p.size = 3) :=
  ⟨(thread_pool_size_contract.1 0).mpr rfl, by decide,
   thread_pool_size_contract.2 3 (by decide)⟩

/-- Claim C10: a path consisting of an ampersand-free url followed by a
single trailing ampersand parses successfully with that url and an empty
query map — the same result as the path without the trailing ampersand. -/
theorem trailing_separator_empty_query (u : String) (h : '&' ∉ u.data) :
    parse_path (u ++ "&") = Except.ok (u, [])
  ∧ parse_path u = Except.ok (u, []) := by
  constructor
  · unfold parse_path rSplit
    rw [show (u ++ "&").data = u.data ++ '&' :: [] from by rw [String.data_append]]
    rw [splitChar_append_sep [] h]
    rfl
  · unfold parse_path rSplit
    rw [splitChar_of_not_mem h]
    rfl

/-- Witness for C10: "/u&" parses to url "/u" with no query parameters,
exactly like "/u". -/
theorem trailing_separator_witness :
    ('&' ∉ "/u".data)
  ∧ parse_path ("/u" ++ "&") = Except.ok ("/u", [])
  ∧ parse_path "/u" = Except.ok ("/u", []) :=
  ⟨by decide, (trailing_separator_empty_query "/u" (by decide)).1,
   (trailing_separator_empty_query "/u" (by decide)).2⟩

end RustWebServer
